import Mathlib

/-!
Verification development for the crossinfo terminal dashboard.

The definitions below are a shallow embedding of the dashboard core in
src/cli/src/main.rs together with the data model of src/backend/src/lib.rs.
Floating point values (f32/f64) are modelled as rationals, machine integers
(usize, u16) as naturals with explicit saturation where the source saturates,
Instant/Duration as rational numbers of seconds.  Rust panics
(unreachable!, unwrap/expect on None) are modelled as explicit panic
results.  The external crates (sysinfo, ratatui, crossterm, humansize) are
collaborators at the boundary: probe calls appear as explicit inputs, and
rendering output is projected to the data that determines it.
-/

namespace Crossinfo

/-- Result of a Rust comparator, std::cmp::Ordering. -/
inductive CmpOrdering
  | Less
  | Equal
  | Greater
deriving DecidableEq

/-- The `Ordering` enum of src/cli/src/main.rs lines 40-43 (sort direction).
Named with the source name inside this namespace. -/
inductive Ordering
  | Ascending
  | Descending
deriving DecidableEq

/-- Models `a.partial_cmp(&b).unwrap()` on values whose order is total
(the source applies it to non-NaN numeric and Duration fields). -/
def cmpVal {α : Type} [LinearOrder α] (a b : α) : CmpOrdering :=
  if a < b then .Less else if a = b then .Equal else .Greater

/-- `Ordering::sort_by` of src/cli/src/main.rs lines 46-54: produces a
comparator; ascending compares the arguments in order, descending swapped. -/
def Ordering.sort_by {α : Type} [LinearOrder α] : Ordering → α → α → CmpOrdering
  | .Ascending, a, b => cmpVal a b
  | .Descending, a, b => cmpVal b a

/-- The order relation a Rust stable sort establishes from a comparator:
`a` may stay left of `b` exactly when the comparator does not say Greater. -/
def rustSortLe {α : Type} (cmp : α → α → CmpOrdering) (a b : α) : Prop :=
  cmp a b ≠ .Greater

instance {α : Type} (cmp : α → α → CmpOrdering) : DecidableRel (rustSortLe cmp) :=
  fun a b => inferInstanceAs (Decidable (cmp a b ≠ .Greater))

/-- Models `Vec::sort_by(cmp)`: a stable sort driven by the comparator.
A stable sort is extensionally determined by sortedness plus stability, so
insertion sort (which is stable) is a faithful model of the slice sort the
source calls. -/
def vec_sort_by {α : Type} (cmp : α → α → CmpOrdering) (l : List α) : List α :=
  List.insertionSort (rustSortLe cmp) l

/-- MemoryInfo of src/backend/src/lib.rs lines 146-151. -/
structure MemoryInfo where
  total_memory : ℕ
  used_memory : ℕ
  total_swap : ℕ
  used_swap : ℕ
deriving DecidableEq

/-- CpuInfo of src/backend/src/lib.rs lines 121-126.  Equality and hashing in
the source use only model and manufacturer; that key equality is
`cpu_key_eq` below. -/
structure CpuInfo where
  usage : ℚ
  model : String
  manufacturer : String
  frequency_ghz : ℚ
deriving DecidableEq

/-- The `PartialEq for CpuInfo` of src/backend/src/lib.rs lines 135-139:
two CpuInfo values are the same HashMap key when model and manufacturer
agree. -/
def cpu_key_eq (a b : CpuInfo) : Bool :=
  a.model == b.model && a.manufacturer == b.manufacturer

/-- ProcessInfo of src/backend/src/lib.rs lines 217-227.  run_time is in
seconds, pids are naturals. -/
structure ProcessInfo where
  name : String
  path : Option String
  memory_usage : ℕ
  swap_usage : ℕ
  cpu_usage : ℚ
  run_time : ℚ
  pid : ℕ
  parent : Option ℕ
deriving DecidableEq

/-- ComponentInfo of src/backend/src/lib.rs lines 230-234. -/
structure ComponentInfo where
  name : String
  temperature : ℚ
  critical_temperature : Option ℚ
deriving DecidableEq

/-- SortByProcess of src/cli/src/main.rs lines 85-90. -/
inductive SortByProcess
  | CpuUsage (ord : Ordering)
  | MemoryUsage (ord : Ordering)
  | SwapUsage (ord : Ordering)
  | Runtime (ord : Ordering)
deriving DecidableEq

/-- SortByComponent of src/cli/src/main.rs lines 93-96. -/
inductive SortByComponent
  | Temperature (ord : Ordering)
  | Critical (ord : Ordering)
deriving DecidableEq

/-- The `sort_fn` closure of process_tab, src/cli/src/main.rs lines
1152-1157. -/
def process_sort_fn (ordering : SortByProcess) (a b : ProcessInfo) : CmpOrdering :=
  match ordering with
  | .CpuUsage ord => ord.sort_by a.cpu_usage b.cpu_usage
  | .MemoryUsage ord => ord.sort_by a.memory_usage b.memory_usage
  | .SwapUsage ord => ord.sort_by a.swap_usage b.swap_usage
  | .Runtime ord => ord.sort_by a.run_time b.run_time

/-- The `sort_fn` closure of component_tab, src/cli/src/main.rs lines
1252-1255: a missing critical temperature compares as 0
(`unwrap_or(0.0)`). -/
def component_sort_fn (ordering : SortByComponent) (a b : ComponentInfo) : CmpOrdering :=
  match ordering with
  | .Temperature ord => ord.sort_by a.temperature b.temperature
  | .Critical ord => ord.sort_by (a.critical_temperature.getD 0) (b.critical_temperature.getD 0)

/-- `process_info.sort_by(sort_fn)` of src/cli/src/main.rs line 1159. -/
def sorted_process_list (o : SortByProcess) (l : List ProcessInfo) : List ProcessInfo :=
  vec_sort_by (process_sort_fn o) l

/-- `component_info.sort_by(sort_fn)` of src/cli/src/main.rs line 1256. -/
def sorted_component_list (o : SortByComponent) (l : List ComponentInfo) : List ComponentInfo :=
  vec_sort_by (component_sort_fn o) l

/-- The refresh interval, `INTERVAL = Duration::from_secs(1)` of
src/cli/src/main.rs line 125, in seconds. -/
def INTERVAL : ℚ := 1

/-- The debounced snapshot cache step shared by cpu_tab (src/cli/src/main.rs
lines 639-643) and process_tab (lines 1122-1126): a pair of the latest
probed value and the fetch instant (the `static LATEST_INFO`).  If no fetch
ever happened, or more than INTERVAL elapsed since the stored instant, the
probe result replaces the cache together with the current instant; otherwise
the cache is untouched.  The value served to the caller is the first
component of the result. -/
def latest_info_refresh {α : Type} (cache : Option α × Option ℚ) (now : ℚ)
    (probe : Option α) : Option α × Option ℚ :=
  match cache.2 with
  | none => (probe, some now)
  | some t0 => if now - t0 > INTERVAL then (probe, some now) else cache

/-- memory_tab (src/cli/src/main.rs line 774) calls
`manager.memory_information()` directly on every draw: the memory category
has no cache and no timestamp gate, so the displayed memory information is
exactly the current probe result. -/
def memory_tab_displayed (mem_probe : Option MemoryInfo) : Option MemoryInfo :=
  mem_probe

/-- The axis-scale loop of src/cli/src/main.rs lines 194-196 and 200-202:
`while x > 1000.0 { x = x / 1000.0 }`.  Divides by 1000 while the value
still exceeds 1000. -/
def shrink1000 (x : ℚ) : ℚ :=
  if h : 1000 < x then shrink1000 (x / 1000) else x
termination_by Nat.floor x
decreasing_by
  have hx0 : (0:ℚ) ≤ x / 1000 := by positivity
  have h1000 : (1000:ℕ) ≤ Nat.floor x := Nat.le_floor (by exact_mod_cast h.le)
  have _hfl : (1000:ℚ) ≤ ((Nat.floor x : ℕ) : ℚ) := by exact_mod_cast h1000
  have hxlt : x < (Nat.floor x : ℚ) + 1 := Nat.lt_floor_add_one x
  have hlt : x / 1000 < ((Nat.floor x : ℕ) : ℚ) := by
    rw [div_lt_iff₀ (by norm_num : (0:ℚ) < 1000)]
    nlinarith
  exact (Nat.floor_lt hx0).mpr hlt

/-- The derived axis scale of src/cli/src/main.rs lines 193-197 (RAM) and
199-203 (swap): run the shrinking loop on the reported total capacity and
floor the result. -/
def important_digits (total : ℕ) : ℚ :=
  (⌊shrink1000 (total : ℚ)⌋ : ℚ)

/-- The axis-scale loop as the specification words it, for the refinement
comparison of claim C9: repeatedly divide "until the value drops below
1000", i.e. keep dividing while the value is still at least 1000. -/
def shrink1000_specWords (x : ℚ) : ℚ :=
  if h : 1000 ≤ x then shrink1000_specWords (x / 1000) else x
termination_by Nat.floor x
decreasing_by
  have hx0 : (0:ℚ) ≤ x / 1000 := by positivity
  have h1000 : (1000:ℕ) ≤ Nat.floor x := Nat.le_floor (by exact_mod_cast h)
  have hfl : (1000:ℚ) ≤ ((Nat.floor x : ℕ) : ℚ) := by exact_mod_cast h1000
  have hxlt : x < (Nat.floor x : ℚ) + 1 := Nat.lt_floor_add_one x
  have hlt : x / 1000 < ((Nat.floor x : ℕ) : ℚ) := by
    rw [div_lt_iff₀ (by norm_num : (0:ℚ) < 1000)]
    nlinarith
  exact (Nat.floor_lt hx0).mpr hlt

/-- The axis scale as the specification words it (compare
`important_digits`). -/
def important_digits_specWords (total : ℕ) : ℚ :=
  (⌊shrink1000_specWords (total : ℚ)⌋ : ℚ)

/-- A chart data point, `type DataPoint = (f64, f64)` of src/cli/src/main.rs
line 36: (seconds elapsed, value). -/
abbrev DataPoint : Type := ℚ × ℚ

/-- The popup returned by process_tab, `enum ProcessPopup` of
src/cli/src/main.rs lines 99-103.  The source builds the MoreInformation
text from the fields of the selected process through external formatting
crates; the embedding keeps the process whose fields determine that text. -/
inductive ProcessPopup
  | KillProcess (process_name : String) (pid : ℕ)
  | MoreInformation (process : ProcessInfo)
  | NoSelected
deriving DecidableEq

/-- `backend::Tab::COUNT`: the Tab enum of src/backend/src/lib.rs lines
37-72 has ten variants (System, Cpu, Memory, Disk, Battery, Network,
Processes, Components, Display, Bluetooth). -/
def TAB_COUNT : ℕ := 10

/-- Saturating u16 increment, `u16::saturating_add(1)` of
src/cli/src/main.rs lines 402 and 417. -/
def u16_saturating_add_one (n : ℕ) : ℕ :=
  min (n + 1) 65535

/-- The AppState of src/cli/src/main.rs lines 105-122.  The Manager handle
is an external collaborator and is represented by the probe inputs of each
loop iteration; starting_time is the origin of the rational clock. -/
structure AppState where
  current_line : ℕ
  current_tab : ℕ
  ram_important_digits : Option ℚ
  swap_important_digits : Option ℚ
  process_ordering : SortByProcess
  component_ordering : SortByComponent
  shift_pressed : Bool
  kill_current_process : Bool
  more_information : Bool
  process_to_kill : Option (String × ℕ)
  confirm_kill : Option Bool
  cpu_dataset : List (CpuInfo × List DataPoint)
  ram_dataset : List DataPoint
  swap_dataset : List DataPoint
deriving DecidableEq

/-- The initial AppState of src/cli/src/main.rs lines 166-183 combined with
the one-time axis-scale derivation of lines 190-204, as a function of the
startup memory probe result. -/
def init_app_state (mem : Option MemoryInfo) : AppState :=
  { current_line := 0
    current_tab := 0
    ram_important_digits := mem.map (fun mi => important_digits mi.total_memory)
    swap_important_digits := mem.map (fun mi => important_digits mi.total_swap)
    process_ordering := .CpuUsage .Descending
    component_ordering := .Temperature .Descending
    shift_pressed := false
    kill_current_process := false
    more_information := false
    process_to_kill := none
    confirm_kill := none
    cpu_dataset := []
    ram_dataset := []
    swap_dataset := [] }

/-- Key codes the dashboard loop distinguishes (crossterm KeyCode as matched
in src/cli/src/main.rs lines 334-414 and 252-263). -/
inductive KeyCode
  | char (c : Char)
  | esc
  | enter
  | up
  | down
  | left
  | right
  | shiftModifier
  | otherKey
deriving DecidableEq

/-- Mouse event kinds as matched in src/cli/src/main.rs lines 415-420. -/
inductive MouseKind
  | scrollDown
  | scrollUp
  | otherMouse
deriving DecidableEq

/-- An input event (crossterm Event) as matched by the render loop. -/
inductive Event
  | key (code : KeyCode)
  | mouse (kind : MouseKind)
  | otherEvent
deriving DecidableEq

/-- Actions the main thread performs on external collaborators, in program
order: the stop signal send and the thread join of the quit arms
(src/cli/src/main.rs lines 255-256 and 336-337) and the kill call of line
563. -/
inductive MainAction
  | sendStop
  | joinBackground
  | killProcess (pid : ℕ)
deriving DecidableEq

/-- Result of feeding one event to the dashboard interaction state machine. -/
inductive EventResult
  | proceed (s : AppState)
  | quitProgram (actions : List MainAction)
deriving DecidableEq

/-- The dashboard event handler, src/cli/src/main.rs lines 332-423.  The
quit arm sends the stop signal over the channel and then joins the
background thread, in that order, before run_app returns. -/
def handle_event (s : AppState) (ev : Event) : EventResult :=
  match ev with
  | .key code =>
    match code with
    | .char c =>
      if c = 'q' then .quitProgram [.sendStop, .joinBackground]
      else if c = 'c' then
        .proceed (if s.current_tab = 6 then { s with process_ordering := .CpuUsage .Ascending }
          else if s.current_tab = 7 then { s with component_ordering := .Critical .Ascending }
          else s)
      else if c = 'C' then
        .proceed (if s.current_tab = 6 then { s with process_ordering := .CpuUsage .Descending }
          else if s.current_tab = 7 then { s with component_ordering := .Critical .Descending }
          else s)
      else if c = 'm' then .proceed { s with process_ordering := .MemoryUsage .Ascending }
      else if c = 'M' then .proceed { s with process_ordering := .MemoryUsage .Descending }
      else if c = 's' then .proceed { s with process_ordering := .SwapUsage .Ascending }
      else if c = 'S' then .proceed { s with process_ordering := .SwapUsage .Descending }
      else if c = 'r' then .proceed { s with process_ordering := .Runtime .Ascending }
      else if c = 'R' then .proceed { s with process_ordering := .Runtime .Descending }
      else if c = 't' then .proceed { s with component_ordering := .Temperature .Ascending }
      else if c = 'T' then .proceed { s with component_ordering := .Temperature .Descending }
      else if c = 'k' then .proceed { s with kill_current_process := true }
      else if c = 'i' then .proceed { s with more_information := true }
      else if c = 'x' then
        .proceed { s with more_information := false, kill_current_process := false,
                          process_to_kill := none }
      else if c = 'y' then
        .proceed { s with confirm_kill := some true, kill_current_process := false }
      else if c = 'n' then
        .proceed { s with confirm_kill := some false, kill_current_process := false,
                          process_to_kill := none }
      else .proceed s
    | .esc => .quitProgram [.sendStop, .joinBackground]
    | .shiftModifier => .proceed { s with shift_pressed := true }
    | .up => .proceed { s with current_line := s.current_line - 1 }
    | .down => .proceed { s with current_line := u16_saturating_add_one s.current_line }
    | .left => .proceed { s with current_tab := s.current_tab - 1, current_line := 0 }
    | .right =>
      .proceed { s with
        current_tab := if s.current_tab < TAB_COUNT - 1 then s.current_tab + 1 else s.current_tab,
        current_line := 0 }
    | .enter => .proceed s
    | .otherKey => .proceed s
  | .mouse kind =>
    match kind with
    | .scrollDown => .proceed { s with current_line := u16_saturating_add_one s.current_line }
    | .scrollUp => .proceed { s with current_line := s.current_line - 1 }
    | .otherMouse => .proceed s
  | .otherEvent => .proceed s

/-- Result of one key event in the welcome screen loop,
src/cli/src/main.rs lines 252-264. -/
inductive WelcomeResult
  | quitFromWelcome (actions : List MainAction)
  | toDashboard
  | stayOnWelcome
deriving DecidableEq

/-- The welcome screen event handler, src/cli/src/main.rs lines 252-264:
quit keys send the stop signal and join the background thread before
returning; Enter proceeds to the dashboard loop. -/
def welcome_handle (code : KeyCode) : WelcomeResult :=
  match code with
  | .char c => if c = 'q' then .quitFromWelcome [.sendStop, .joinBackground] else .stayOnWelcome
  | .esc => .quitFromWelcome [.sendStop, .joinBackground]
  | .enter => .toDashboard
  | _ => .stayOnWelcome

/-- Assoc-list lookup in the cpu_dataset HashMap, keyed by the CpuInfo key
equality (model and manufacturer). -/
def dataset_find (ds : List (CpuInfo × List DataPoint)) (core : CpuInfo) :
    Option (List DataPoint) :=
  match ds with
  | [] => none
  | (k, series) :: rest => if cpu_key_eq k core then some series else dataset_find rest core

/-- Whether the cpu_dataset HashMap holds a series for the given core key. -/
def dataset_has_key (ds : List (CpuInfo × List DataPoint)) (core : CpuInfo) : Bool :=
  (dataset_find ds core).isSome

/-- `cpu_dataset.get_mut(&cpu_core)` followed by a push
(src/cli/src/main.rs lines 310-314): append a point to the series stored
under the key of `core`; `none` models the `.expect("The core should
exist")` panic when the key is absent. -/
def dataset_push (ds : List (CpuInfo × List DataPoint)) (core : CpuInfo)
    (p : DataPoint) : Option (List (CpuInfo × List DataPoint)) :=
  match ds with
  | [] => none
  | (k, series) :: rest =>
    if cpu_key_eq k core then some ((k, series ++ [p]) :: rest)
    else (dataset_push rest core p).map (fun r => (k, series) :: r)

/-- The `for cpu_core in cpu_info` push loop of src/cli/src/main.rs lines
309-315: push (t, usage) for every probed core, panicking (`none`) when a
probed core has no series yet. -/
def push_all_cores (ds : List (CpuInfo × List DataPoint)) (t : ℚ)
    (cores : List CpuInfo) : Option (List (CpuInfo × List DataPoint)) :=
  match cores with
  | [] => some ds
  | c :: cs => (dataset_push ds c (t, c.usage)).bind (fun ds2 => push_all_cores ds2 t cs)

/-- Result of the time-series recording step: either the updated state
together with the new `latest_update` instant, or a panic. -/
inductive RecordResult
  | panics
  | ok (s : AppState) (latest_update : ℚ)
deriving DecidableEq

/-- The chart-sample value pushed for RAM (src/cli/src/main.rs lines
317-322) and for swap (lines 324-328): 0 when the total is 0, otherwise
used/total scaled by the unwrapped axis digits; `none` models the panic of
`.unwrap()` when the axis scale was never derived. -/
def chart_sample_value (total used : ℕ) (digits : Option ℚ) : Option ℚ :=
  if total = 0 then some 0
  else digits.map (fun d => ((used : ℚ) / (total : ℚ)) * d)

/-- The time-series recording step of the dashboard loop,
src/cli/src/main.rs lines 297-330.  Runs only when both the CPU probe and
the memory probe return a value.  An empty cpu_dataset receives a first
sample per probed core (and resets `latest_update`); otherwise, when more
than INTERVAL passed since `latest_update`, every probed core gets a new
sample and one RAM and one swap sample are appended.  The RAM and swap
series are gated by the shared `latest_update` instant only. -/
def record_step (s : AppState) (latest_update : ℚ) (t : ℚ)
    (cpu_probe : Option (List CpuInfo)) (mem_probe : Option MemoryInfo) : RecordResult :=
  match cpu_probe, mem_probe with
  | some cpu_info, some memory_info =>
    if s.cpu_dataset.isEmpty then
      .ok { s with cpu_dataset := cpu_info.map (fun c => (c, [(t, c.usage)])) } t
    else if t - latest_update > INTERVAL then
      match push_all_cores s.cpu_dataset t cpu_info with
      | none => .panics
      | some ds2 =>
        match chart_sample_value memory_info.total_memory memory_info.used_memory
            s.ram_important_digits,
          chart_sample_value memory_info.total_swap memory_info.used_swap
            s.swap_important_digits with
        | some ram_v, some swap_v =>
          .ok { s with cpu_dataset := ds2,
                       ram_dataset := s.ram_dataset ++ [(t, ram_v)],
                       swap_dataset := s.swap_dataset ++ [(t, swap_v)] } t
        | _, _ => .panics
    else .ok s latest_update
  | _, _ => .ok s latest_update

/-- The popup computed by process_tab, src/cli/src/main.rs lines 1130-1226:
only when the cached process list exists and is nonempty, the entry at
current_line (after sorting) is the selected process; the kill flag takes
precedence over the more-information flag, and a missing selection yields
the NoSelected warning. -/
def process_tab_popup (procs : Option (List ProcessInfo)) (ordering : SortByProcess)
    (kill_current_process more_information : Bool) (current_line : ℕ) :
    Option ProcessPopup :=
  match procs with
  | some process_info =>
    if process_info.isEmpty then none
    else
      let sorted := sorted_process_list ordering process_info
      let selected_process := sorted[current_line]?
      if kill_current_process then
        some (match selected_process with
          | some p => .KillProcess p.name p.pid
          | none => .NoSelected)
      else if more_information then
        some (match selected_process with
          | some p => .MoreInformation p
          | none => .NoSelected)
      else none
  | none => none

/-- The mutable state threaded through the render loop: the AppState, the
local `latest_update` of run_app (line 185), and the two `static
LATEST_INFO` caches of cpu_tab (line 637) and process_tab (line 1120). -/
structure LoopState where
  app : AppState
  latest_update : ℚ
  cpu_tab_cache : Option (List CpuInfo) × Option ℚ
  process_tab_cache : Option (List ProcessInfo) × Option ℚ
deriving DecidableEq

/-- The external inputs one loop iteration can consume: the elapsed clock,
the probe results of each call site (the source probes CPU and memory both
in the recording step and inside the tab being drawn), and at most one
polled input event. -/
structure TickInput where
  t : ℚ
  cpu_probe_tab : Option (List CpuInfo)
  cpu_probe_record : Option (List CpuInfo)
  mem_probe_draw : Option MemoryInfo
  mem_probe_record : Option MemoryInfo
  proc_probe : Option (List ProcessInfo)
  event : Option Event

/-- Result of drawing one frame (the `ui` function,
src/cli/src/main.rs lines 442-588). -/
inductive DrawResult
  | panics
  | ok (ls : LoopState) (actions : List MainAction)
deriving DecidableEq

/-- One call of `ui` (src/cli/src/main.rs lines 442-588) projected to its
effect on program state.  Tabs 0, 3, 4, 5 and 7 render without touching the
loop state.  Tab 1 refreshes the cpu_tab cache and indexes cpu_dataset by
every cached core (`cpu_dataset[cpu_core]`, line 720), panicking when a
core has no series.  Tab 2 unwraps both axis scales whenever the memory
probe returns a value (lines 775-776).  Tab 6 refreshes the process_tab
cache, computes the popup (recording the process to kill), and on a
confirmed kill unwraps process_to_kill (line 563) and issues the kill
action.  Any other tab index is the `unreachable!()` arm of line 586.
The Rust `match` on the tab index is a chain of equality tests here.
First the helper for lines 544-547: a KillProcess popup stores the
selected process identity into process_to_kill when none is stored. -/
def popup_recorded_kill (popup : Option ProcessPopup) (old : Option (String × ℕ)) :
    Option (String × ℕ) :=
  match popup with
  | some (.KillProcess nm pid) => if old.isNone then some (nm, pid) else old
  | some (.MoreInformation _) => old
  | some .NoSelected => old
  | none => old

def ui_draw (ls : LoopState) (inp : TickInput) : DrawResult :=
  if ls.app.current_tab = 0 then .ok ls []
  else if ls.app.current_tab = 1 then
    let cache2 := latest_info_refresh ls.cpu_tab_cache inp.t inp.cpu_probe_tab
    match cache2.1 with
    | none => .ok { ls with cpu_tab_cache := cache2 } []
    | some cores =>
      if cores.all (fun c => dataset_has_key ls.app.cpu_dataset c) then
        .ok { ls with cpu_tab_cache := cache2 } []
      else .panics
  else if ls.app.current_tab = 2 then
    match inp.mem_probe_draw with
    | some _ =>
      if ls.app.ram_important_digits.isSome && ls.app.swap_important_digits.isSome then
        .ok ls []
      else .panics
    | none => .ok ls []
  else if ls.app.current_tab = 3 then .ok ls []
  else if ls.app.current_tab = 4 then .ok ls []
  else if ls.app.current_tab = 5 then .ok ls []
  else if ls.app.current_tab = 6 then
    let cache2 := latest_info_refresh ls.process_tab_cache inp.t inp.proc_probe
    let popup := process_tab_popup cache2.1 ls.app.process_ordering
      ls.app.kill_current_process ls.app.more_information ls.app.current_line
    let ptk := popup_recorded_kill popup ls.app.process_to_kill
    if ls.app.confirm_kill.getD false then
      match ptk with
      | none => .panics
      | some (_, pid) =>
        .ok { ls with process_tab_cache := cache2,
                      app := { ls.app with process_to_kill := none } } [.killProcess pid]
    else
      .ok { ls with process_tab_cache := cache2,
                    app := { ls.app with process_to_kill := ptk } } []
  else if ls.app.current_tab = 7 then .ok ls []
  else .panics

/-- Outcome of one dashboard loop iteration. -/
inductive IterOutcome
  | panics
  | quits (ls : LoopState) (actions : List MainAction)
  | continues (ls : LoopState) (actions : List MainAction)
deriving DecidableEq

/-- One iteration of the dashboard loop, src/cli/src/main.rs lines 271-424,
in source order: draw the frame, reset confirm_kill and shift_pressed
(lines 294-295, the function below), run the time-series recording step
(lines 297-330), then handle at most one polled input event
(lines 332-423). -/
def post_draw_reset (s : AppState) : AppState :=
  { s with confirm_kill := none, shift_pressed := false }

def loop_iter (ls : LoopState) (inp : TickInput) : IterOutcome :=
  match ui_draw ls inp with
  | .panics => .panics
  | .ok ls1 acts1 =>
    let s1 := post_draw_reset ls1.app
    match record_step s1 ls1.latest_update inp.t inp.cpu_probe_record inp.mem_probe_record with
    | .panics => .panics
    | .ok s2 lu2 =>
      let ls2 := { ls1 with app := s2, latest_update := lu2 }
      match inp.event with
      | none => .continues ls2 acts1
      | some ev =>
        match handle_event s2 ev with
        | .proceed s3 => .continues { ls2 with app := s3 } acts1
        | .quitProgram qacts => .quits ls2 (acts1 ++ qacts)

/-- Outcome of running the dashboard loop over a list of tick inputs. -/
inductive RunOutcome
  | panicked
  | quitted (ls : LoopState) (actions : List MainAction)
  | finished (ls : LoopState)
deriving DecidableEq

/-- Run the dashboard loop over a finite list of tick inputs. -/
def run_loop (ls : LoopState) : List TickInput → RunOutcome
  | [] => .finished ls
  | inp :: rest =>
    match loop_iter ls inp with
    | .panics => .panicked
    | .quits ls2 acts => .quitted ls2 acts
    | .continues ls2 _ => run_loop ls2 rest

/-- The loop state at entry of the dashboard loop: the initial AppState,
`latest_update = Instant::now()` of line 185 (time 0 on the rational
clock), and both statics at their `(None, None)` initial value. -/
def init_loop_state (mem : Option MemoryInfo) : LoopState :=
  { app := init_app_state mem
    latest_update := 0
    cpu_tab_cache := (none, none)
    process_tab_cache := (none, none) }

/-- State of the background network task of src/cli/src/main.rs lines
153-164. -/
inductive BgState
  | running
  | stopped
deriving DecidableEq

/-- One iteration of the background network task loop: at the loop head the
task checks `receiver.try_recv()`; if the stop signal arrived it breaks,
otherwise it runs one (terminating) network probe and publishes the result
into the shared slot. -/
def bg_step (stop_received : Bool) : BgState → BgState
  | .stopped => .stopped
  | .running => if stop_received then .stopped else .running

/-- The background task after n loop-head checks, when the stop signal was
sent before check number `sentAt`.  Cancellation is cooperative: the signal
is observed at the next loop-head check after it was sent. -/
def bg_run (sentAt : ℕ) : ℕ → BgState
  | 0 => .running
  | n + 1 => bg_step (decide (sentAt ≤ n)) (bg_run sentAt n)

/-- The AppState fields the draw and record phases never change: cursor
position, active tab, and both derived axis scales. -/
def preserves_view_fields (s s2 : AppState) : Prop :=
  s2.current_line = s.current_line ∧ s2.current_tab = s.current_tab ∧
  s2.ram_important_digits = s.ram_important_digits ∧
  s2.swap_important_digits = s.swap_important_digits

/-- Field preservation for a draw result. -/
def draw_preserves (ls : LoopState) (r : DrawResult) : Prop :=
  match r with
  | .panics => True
  | .ok ls2 _ => preserves_view_fields ls.app ls2.app

/-- Field preservation for a recording-step result. -/
def record_preserves (s : AppState) (r : RecordResult) : Prop :=
  match r with
  | .panics => True
  | .ok s2 _ => preserves_view_fields s s2

/-- The event handler never touches the derived axis scales. -/
def event_scales_preserved (s : AppState) (r : EventResult) : Prop :=
  match r with
  | .proceed s2 =>
    s2.ram_important_digits = s.ram_important_digits ∧
    s2.swap_important_digits = s.swap_important_digits
  | .quitProgram _ => True

/-- The u16 bound on the cursor after one event. -/
def event_line_bounded (r : EventResult) : Prop :=
  match r with
  | .proceed s2 => s2.current_line ≤ 65535
  | .quitProgram _ => True

/-- Scale preservation for one whole loop iteration. -/
def iter_scales_preserved (ls : LoopState) (r : IterOutcome) : Prop :=
  match r with
  | .panics => True
  | .quits ls2 _ =>
    ls2.app.ram_important_digits = ls.app.ram_important_digits ∧
    ls2.app.swap_important_digits = ls.app.swap_important_digits
  | .continues ls2 _ =>
    ls2.app.ram_important_digits = ls.app.ram_important_digits ∧
    ls2.app.swap_important_digits = ls.app.swap_important_digits

/-- Cursor bound for one whole loop iteration. -/
def iter_line_bounded (r : IterOutcome) : Prop :=
  match r with
  | .panics => True
  | .quits ls2 _ => ls2.app.current_line ≤ 65535
  | .continues ls2 _ => ls2.app.current_line ≤ 65535

/-- Cursor bound for a whole run of the dashboard loop. -/
def run_line_bounded (r : RunOutcome) : Prop :=
  match r with
  | .panicked => True
  | .quitted ls2 _ => ls2.app.current_line ≤ 65535
  | .finished ls2 => ls2.app.current_line ≤ 65535

/-- Scale preservation for a whole run of the dashboard loop. -/
def run_scales_eq (ls : LoopState) (r : RunOutcome) : Prop :=
  match r with
  | .panicked => True
  | .quitted ls2 _ =>
    ls2.app.ram_important_digits = ls.app.ram_important_digits ∧
    ls2.app.swap_important_digits = ls.app.swap_important_digits
  | .finished ls2 =>
    ls2.app.ram_important_digits = ls.app.ram_important_digits ∧
    ls2.app.swap_important_digits = ls.app.swap_important_digits

/-- A loop tick with a given clock and polled event and no probe data
(every probe call returns None, i.e. the capability is absent or the
category reports nothing this tick). -/
def quiet_tick (t : ℚ) (ev : Option Event) : TickInput :=
  { t := t, cpu_probe_tab := none, cpu_probe_record := none,
    mem_probe_draw := none, mem_probe_record := none, proc_probe := none, event := ev }

/-- Feed a list of polled input events to the dashboard event handler one
after another (the event-interpretation part of the render loop, lines
332-423 of src/cli/src/main.rs); a quit event ends the interaction. -/
def apply_events (s : AppState) : List Event → AppState
  | [] => s
  | e :: es =>
    match handle_event s e with
    | .proceed s2 => apply_events s2 es
    | .quitProgram _ => s

/-- The elapsed timestamp of the last recorded sample of a series. -/
def series_last_elapsed (series : List DataPoint) : Option ℚ :=
  series.getLast?.map Prod.fst

/-! ### Helper lemmas about the stable sort model -/

theorem filter_orderedInsert_pos {α : Type} (r : α → α → Prop) [DecidableRel r]
    (p : α → Bool) (a : α) (hpa : p a = true)
    (L : List α) (hskip : ∀ b ∈ L, p b = true → r a b) :
    (List.orderedInsert r a L).filter p = a :: L.filter p := by
  induction L with
  | nil => simp [List.orderedInsert, hpa]
  | cons b L2 ih =>
    by_cases hrab : r a b
    · simp [List.orderedInsert, hrab, List.filter_cons, hpa]
    · have hpb : p b = false := by
        cases hb : p b with
        | false => rfl
        | true => exact absurd (hskip b (by simp) hb) hrab
      have ih2 := ih (fun c hc hpc => hskip c (by simp [hc]) hpc)
      simp [List.orderedInsert, hrab, List.filter_cons, hpb, ih2]

theorem filter_orderedInsert_neg {α : Type} (r : α → α → Prop) [DecidableRel r]
    (p : α → Bool) (a : α) (hpa : p a = false) (L : List α) :
    (List.orderedInsert r a L).filter p = L.filter p := by
  induction L with
  | nil => simp [List.orderedInsert, hpa]
  | cons b L2 ih =>
    by_cases hrab : r a b
    · simp [List.orderedInsert, hrab, List.filter_cons, hpa]
    · simp [List.orderedInsert, hrab, List.filter_cons, ih]

/-- Stability of the sort model: for any Bool predicate whose holders are
pairwise related by the sort relation (elements comparing equal under the
selected field), filtering commutes with sorting, i.e. those elements keep
their relative input order. -/
theorem filter_insertionSort_stable {α : Type} (r : α → α → Prop) [DecidableRel r]
    (p : α → Bool) (hties : ∀ a b, p a = true → p b = true → r a b)
    (l : List α) :
    (List.insertionSort r l).filter p = l.filter p := by
  induction l with
  | nil => rfl
  | cons a l ih =>
    show (List.orderedInsert r a (List.insertionSort r l)).filter p = _
    cases hpa : p a with
    | true =>
      rw [filter_orderedInsert_pos r p a hpa _ (fun b _ hpb => hties a b hpa hpb), ih,
        List.filter_cons, hpa]
      simp
    | false =>
      rw [filter_orderedInsert_neg r p a hpa, ih, List.filter_cons, hpa]
      simp

/-- Sorting an already ascending-sorted list with the flipped comparator
reverses it exactly, when the selected keys are pairwise distinct. -/
theorem insertionSort_desc_of_asc {α β : Type} [LinearOrder β]
    (rA rD : α → α → Prop) [DecidableRel rA] [DecidableRel rD] (f : α → β)
    (hA : ∀ a b, rA a b ↔ f a ≤ f b) (hD : ∀ a b, rD a b ↔ f b ≤ f a)
    (l : List α) (hd : l.Pairwise (fun a b => f a ≠ f b)) :
    List.insertionSort rD (List.insertionSort rA l) =
      (List.insertionSort rA l).reverse := by
  haveI : IsTotal α rA := ⟨fun a b => by rw [hA, hA]; exact le_total _ _⟩
  haveI : IsTrans α rA := ⟨fun a b c hab hbc => by
    rw [hA] at hab hbc ⊢; exact le_trans hab hbc⟩
  haveI : IsTotal α rD := ⟨fun a b => by rw [hD, hD]; exact (le_total (f b) (f a)).imp id id⟩
  haveI : IsTrans α rD := ⟨fun a b c hab hbc => by
    rw [hD] at hab hbc ⊢; exact le_trans hbc hab⟩
  have hpermL : List.Perm (List.insertionSort rA l) l := List.perm_insertionSort rA l
  have hsortL : (List.insertionSort rA l).Sorted rA := List.sorted_insertionSort rA l
  have hneL : (List.insertionSort rA l).Pairwise (fun a b => f a ≠ f b) :=
    (List.Perm.pairwise_iff (fun h => Ne.symm h) hpermL).mpr hd
  have hltL : (List.insertionSort rA l).Pairwise (fun a b => f a < f b) :=
    (List.Pairwise.and hsortL hneL).imp (fun h => lt_of_le_of_ne ((hA _ _).mp h.1) h.2)
  have hpermR : List.Perm (List.insertionSort rD (List.insertionSort rA l))
      (List.insertionSort rA l) :=
    List.perm_insertionSort rD _
  have hsortR : (List.insertionSort rD (List.insertionSort rA l)).Sorted rD :=
    List.sorted_insertionSort rD _
  have hneR : (List.insertionSort rD (List.insertionSort rA l)).Pairwise
      (fun a b => f a ≠ f b) :=
    (List.Perm.pairwise_iff (fun h => Ne.symm h) hpermR).mpr hneL
  have hgtR : (List.insertionSort rD (List.insertionSort rA l)).Pairwise
      (fun a b => f b < f a) :=
    (List.Pairwise.and hsortR hneR).imp
      (fun h => lt_of_le_of_ne ((hD _ _).mp h.1) (Ne.symm h.2))
  have hgtRev : (List.insertionSort rA l).reverse.Pairwise (fun a b => f b < f a) :=
    List.pairwise_reverse.mpr hltL
  have hpermFinal : List.Perm (List.insertionSort rD (List.insertionSort rA l))
      (List.insertionSort rA l).reverse :=
    hpermR.trans (List.insertionSort rA l).reverse_perm.symm
  haveI : IsAntisymm α (fun a b => f b < f a) := ⟨fun a b h1 h2 => absurd h2 (lt_asymm h1)⟩
  exact List.eq_of_perm_of_sorted hpermFinal hgtR hgtRev

theorem cmpVal_ne_greater_iff {β : Type} [LinearOrder β] (a b : β) :
    cmpVal a b ≠ CmpOrdering.Greater ↔ a ≤ b := by
  unfold cmpVal
  split_ifs with h1 h2
  · simp only [ne_eq]
    exact iff_of_true (by simp) h1.le
  · exact iff_of_true (by simp) h2.le
  · have hba : b < a := lt_of_le_of_ne (not_lt.mp h1) (fun h => h2 h.symm)
    exact iff_of_false (by simp) (not_le.mpr hba)

theorem cmpVal_eq_equal_iff {β : Type} [LinearOrder β] (a b : β) :
    cmpVal a b = CmpOrdering.Equal ↔ a = b := by
  unfold cmpVal
  split_ifs with h1 h2
  · exact iff_of_false (by simp) h1.ne
  · exact iff_of_true rfl h2
  · have hba : b < a := lt_of_le_of_ne (not_lt.mp h1) (fun h => h2 h.symm)
    exact iff_of_false (by simp) hba.ne.symm

/-! ### Preservation lemmas for the loop step -/

theorem ui_draw_preserves (ls : LoopState) (inp : TickInput) :
    draw_preserves ls (ui_draw ls inp) := by
  unfold ui_draw
  dsimp only
  repeat' split
  all_goals simp [draw_preserves, preserves_view_fields]

theorem record_step_preserves (s : AppState) (lu t : ℚ)
    (cpu : Option (List CpuInfo)) (mem : Option MemoryInfo) :
    record_preserves s (record_step s lu t cpu mem) := by
  unfold record_step
  repeat' split
  all_goals simp [record_preserves, preserves_view_fields]

set_option maxHeartbeats 1000000 in
theorem handle_event_scales (s : AppState) (ev : Event) :
    event_scales_preserved s (handle_event s ev) := by
  cases ev with
  | otherEvent => exact ⟨rfl, rfl⟩
  | mouse kind => cases kind <;> exact ⟨rfl, rfl⟩
  | key code =>
    cases code with
    | char c =>
      simp only [handle_event]
      by_cases h1 : c = 'q'
      · rw [if_pos h1]
        trivial
      rw [if_neg h1]
      by_cases h2 : c = 'c'
      · rw [if_pos h2]
        by_cases h6 : s.current_tab = 6
        · rw [if_pos h6]; exact ⟨rfl, rfl⟩
        rw [if_neg h6]
        by_cases h7 : s.current_tab = 7
        · rw [if_pos h7]; exact ⟨rfl, rfl⟩
        rw [if_neg h7]; exact ⟨rfl, rfl⟩
      rw [if_neg h2]
      by_cases h3 : c = 'C'
      · rw [if_pos h3]
        by_cases h6 : s.current_tab = 6
        · rw [if_pos h6]; exact ⟨rfl, rfl⟩
        rw [if_neg h6]
        by_cases h7 : s.current_tab = 7
        · rw [if_pos h7]; exact ⟨rfl, rfl⟩
        rw [if_neg h7]; exact ⟨rfl, rfl⟩
      rw [if_neg h3]
      by_cases h4 : c = 'm'
      · rw [if_pos h4]
        exact ⟨rfl, rfl⟩
      rw [if_neg h4]
      by_cases h5 : c = 'M'
      · rw [if_pos h5]
        exact ⟨rfl, rfl⟩
      rw [if_neg h5]
      by_cases h6 : c = 's'
      · rw [if_pos h6]
        exact ⟨rfl, rfl⟩
      rw [if_neg h6]
      by_cases h7 : c = 'S'
      · rw [if_pos h7]
        exact ⟨rfl, rfl⟩
      rw [if_neg h7]
      by_cases h8 : c = 'r'
      · rw [if_pos h8]
        exact ⟨rfl, rfl⟩
      rw [if_neg h8]
      by_cases h9 : c = 'R'
      · rw [if_pos h9]
        exact ⟨rfl, rfl⟩
      rw [if_neg h9]
      by_cases h10 : c = 't'
      · rw [if_pos h10]
        exact ⟨rfl, rfl⟩
      rw [if_neg h10]
      by_cases h11 : c = 'T'
      · rw [if_pos h11]
        exact ⟨rfl, rfl⟩
      rw [if_neg h11]
      by_cases h12 : c = 'k'
      · rw [if_pos h12]
        exact ⟨rfl, rfl⟩
      rw [if_neg h12]
      by_cases h13 : c = 'i'
      · rw [if_pos h13]
        exact ⟨rfl, rfl⟩
      rw [if_neg h13]
      by_cases h14 : c = 'x'
      · rw [if_pos h14]
        exact ⟨rfl, rfl⟩
      rw [if_neg h14]
      by_cases h15 : c = 'y'
      · rw [if_pos h15]
        exact ⟨rfl, rfl⟩
      rw [if_neg h15]
      by_cases h16 : c = 'n'
      · rw [if_pos h16]
        exact ⟨rfl, rfl⟩
      rw [if_neg h16]
      exact ⟨rfl, rfl⟩
    | esc => trivial
    | enter => exact ⟨rfl, rfl⟩
    | up => exact ⟨rfl, rfl⟩
    | down => exact ⟨rfl, rfl⟩
    | left => exact ⟨rfl, rfl⟩
    | right => exact ⟨rfl, rfl⟩
    | shiftModifier => exact ⟨rfl, rfl⟩
    | otherKey => exact ⟨rfl, rfl⟩

set_option maxHeartbeats 1000000 in
theorem handle_event_line_bound (s : AppState) (ev : Event)
    (hb : s.current_line ≤ 65535) :
    event_line_bounded (handle_event s ev) := by
  cases ev with
  | otherEvent => exact hb
  | mouse kind =>
    cases kind with
    | scrollDown =>
      show u16_saturating_add_one s.current_line ≤ 65535
      dsimp only [u16_saturating_add_one]; omega
    | scrollUp => show s.current_line - 1 ≤ 65535; omega
    | otherMouse => exact hb
  | key code =>
    cases code with
    | char c =>
      simp only [handle_event]
      by_cases h1 : c = 'q'
      · rw [if_pos h1]
        trivial
      rw [if_neg h1]
      by_cases h2 : c = 'c'
      · rw [if_pos h2]
        by_cases h6 : s.current_tab = 6
        · rw [if_pos h6]; exact hb
        rw [if_neg h6]
        by_cases h7 : s.current_tab = 7
        · rw [if_pos h7]; exact hb
        rw [if_neg h7]; exact hb
      rw [if_neg h2]
      by_cases h3 : c = 'C'
      · rw [if_pos h3]
        by_cases h6 : s.current_tab = 6
        · rw [if_pos h6]; exact hb
        rw [if_neg h6]
        by_cases h7 : s.current_tab = 7
        · rw [if_pos h7]; exact hb
        rw [if_neg h7]; exact hb
      rw [if_neg h3]
      by_cases h4 : c = 'm'
      · rw [if_pos h4]
        exact hb
      rw [if_neg h4]
      by_cases h5 : c = 'M'
      · rw [if_pos h5]
        exact hb
      rw [if_neg h5]
      by_cases h6 : c = 's'
      · rw [if_pos h6]
        exact hb
      rw [if_neg h6]
      by_cases h7 : c = 'S'
      · rw [if_pos h7]
        exact hb
      rw [if_neg h7]
      by_cases h8 : c = 'r'
      · rw [if_pos h8]
        exact hb
      rw [if_neg h8]
      by_cases h9 : c = 'R'
      · rw [if_pos h9]
        exact hb
      rw [if_neg h9]
      by_cases h10 : c = 't'
      · rw [if_pos h10]
        exact hb
      rw [if_neg h10]
      by_cases h11 : c = 'T'
      · rw [if_pos h11]
        exact hb
      rw [if_neg h11]
      by_cases h12 : c = 'k'
      · rw [if_pos h12]
        exact hb
      rw [if_neg h12]
      by_cases h13 : c = 'i'
      · rw [if_pos h13]
        exact hb
      rw [if_neg h13]
      by_cases h14 : c = 'x'
      · rw [if_pos h14]
        exact hb
      rw [if_neg h14]
      by_cases h15 : c = 'y'
      · rw [if_pos h15]
        exact hb
      rw [if_neg h15]
      by_cases h16 : c = 'n'
      · rw [if_pos h16]
        exact hb
      rw [if_neg h16]
      exact hb
    | esc => trivial
    | enter => exact hb
    | up => show s.current_line - 1 ≤ 65535; omega
    | down =>
      show u16_saturating_add_one s.current_line ≤ 65535
      dsimp only [u16_saturating_add_one]; omega
    | left => show (0:ℕ) ≤ 65535; omega
    | right => show (0:ℕ) ≤ 65535; omega
    | shiftModifier => exact hb
    | otherKey => exact hb

theorem loop_iter_scales (ls : LoopState) (inp : TickInput) :
    iter_scales_preserved ls (loop_iter ls inp) := by
  unfold loop_iter
  have hd := ui_draw_preserves ls inp
  rcases hdr : ui_draw ls inp with _ | ⟨ls1, acts1⟩
  · trivial
  rw [hdr] at hd
  dsimp only [draw_preserves, preserves_view_fields] at hd
  dsimp only
  have hr := record_step_preserves (post_draw_reset ls1.app)
    ls1.latest_update inp.t inp.cpu_probe_record inp.mem_probe_record
  rcases hrr : record_step (post_draw_reset ls1.app)
      ls1.latest_update inp.t inp.cpu_probe_record inp.mem_probe_record with _ | ⟨s2, lu2⟩
  · trivial
  rw [hrr] at hr
  dsimp only [record_preserves, preserves_view_fields] at hr
  rcases hev : inp.event with _ | ev
  · dsimp only
    exact ⟨hr.2.2.1.trans hd.2.2.1, hr.2.2.2.trans hd.2.2.2⟩
  have he := handle_event_scales s2 ev
  rcases her : handle_event s2 ev with s3 | qacts
  · rw [her] at he
    dsimp only
    rw [her]
    dsimp only [event_scales_preserved] at he
    dsimp only
    exact ⟨he.1.trans (hr.2.2.1.trans hd.2.2.1), he.2.trans (hr.2.2.2.trans hd.2.2.2)⟩
  · dsimp only
    rw [her]
    dsimp only
    exact ⟨hr.2.2.1.trans hd.2.2.1, hr.2.2.2.trans hd.2.2.2⟩

theorem loop_iter_line_bound (ls : LoopState) (inp : TickInput)
    (hb : ls.app.current_line ≤ 65535) :
    iter_line_bounded (loop_iter ls inp) := by
  unfold loop_iter
  have hd := ui_draw_preserves ls inp
  rcases hdr : ui_draw ls inp with _ | ⟨ls1, acts1⟩
  · trivial
  rw [hdr] at hd
  dsimp only [draw_preserves, preserves_view_fields] at hd
  dsimp only
  have hr := record_step_preserves (post_draw_reset ls1.app)
    ls1.latest_update inp.t inp.cpu_probe_record inp.mem_probe_record
  rcases hrr : record_step (post_draw_reset ls1.app)
      ls1.latest_update inp.t inp.cpu_probe_record inp.mem_probe_record with _ | ⟨s2, lu2⟩
  · trivial
  rw [hrr] at hr
  dsimp only [record_preserves, preserves_view_fields] at hr
  have hs2 : s2.current_line ≤ 65535 := by
    rw [hr.1]
    show ls1.app.current_line ≤ 65535
    rw [hd.1]; exact hb
  rcases hev : inp.event with _ | ev
  · dsimp only
    exact hs2
  have he := handle_event_line_bound s2 ev hs2
  rcases her : handle_event s2 ev with s3 | qacts
  · rw [her] at he
    dsimp only
    rw [her]
    dsimp only [event_line_bounded] at he
    dsimp only
    exact he
  · dsimp only
    rw [her]
    dsimp only
    exact hs2

theorem run_loop_line_bound (trace : List TickInput) :
    ∀ ls : LoopState, ls.app.current_line ≤ 65535 →
      run_line_bounded (run_loop ls trace) := by
  induction trace with
  | nil => intro ls hb; exact hb
  | cons inp rest ih =>
    intro ls hb
    have hi := loop_iter_line_bound ls inp hb
    unfold run_loop
    rcases hit : loop_iter ls inp with _ | ⟨ls2, acts⟩ | ⟨ls2, acts⟩ <;> rw [hit] at hi <;>
      dsimp only
    · trivial
    · exact hi
    · exact ih ls2 hi

theorem run_loop_scales (trace : List TickInput) :
    ∀ ls : LoopState, run_scales_eq ls (run_loop ls trace) := by
  induction trace with
  | nil => intro ls; exact ⟨rfl, rfl⟩
  | cons inp rest ih =>
    intro ls
    have hi := loop_iter_scales ls inp
    unfold run_loop
    rcases hit : loop_iter ls inp with _ | ⟨ls2, acts⟩ | ⟨ls2, acts⟩ <;> rw [hit] at hi <;>
      dsimp only
    · trivial
    · exact hi
    · have h2 := ih ls2
      have hi2 : ls2.app.ram_important_digits = ls.app.ram_important_digits ∧
          ls2.app.swap_important_digits = ls.app.swap_important_digits := hi
      rcases hr2 : run_loop ls2 rest with _ | ⟨ls3, acts3⟩ | ls3 <;> rw [hr2] at h2
      · trivial
      · have h2c : ls3.app.ram_important_digits = ls2.app.ram_important_digits ∧
            ls3.app.swap_important_digits = ls2.app.swap_important_digits := h2
        show ls3.app.ram_important_digits = ls.app.ram_important_digits ∧
          ls3.app.swap_important_digits = ls.app.swap_important_digits
        exact ⟨h2c.1.trans hi2.1, h2c.2.trans hi2.2⟩
      · have h2c : ls3.app.ram_important_digits = ls2.app.ram_important_digits ∧
            ls3.app.swap_important_digits = ls2.app.swap_important_digits := h2
        show ls3.app.ram_important_digits = ls.app.ram_important_digits ∧
          ls3.app.swap_important_digits = ls.app.swap_important_digits
        exact ⟨h2c.1.trans hi2.1, h2c.2.trans hi2.2⟩

/-! ### Claim theorems -/

/-- Claim C5: when sorting components by the critical-temperature field, an
absent critical temperature is compared as if it were the number 0; and the
two-component scenario: [{CPU0, temp 40, critical 90}, {CPU1, temp 85,
critical none}] sorted by critical temperature ascending gives
[CPU1, CPU0], and sorted by temperature descending gives [CPU1, CPU0]. -/
theorem C5_critical_absent_as_zero :
    (∀ (dir : Ordering) (nm : String) (tp : ℚ) (b : ComponentInfo),
      component_sort_fn (.Critical dir) ⟨nm, tp, none⟩ b =
        component_sort_fn (.Critical dir) ⟨nm, tp, some 0⟩ b ∧
      component_sort_fn (.Critical dir) b ⟨nm, tp, none⟩ =
        component_sort_fn (.Critical dir) b ⟨nm, tp, some 0⟩) ∧
    sorted_component_list (.Critical .Ascending)
        [⟨"CPU0", 40, some 90⟩, ⟨"CPU1", 85, none⟩] =
      [⟨"CPU1", 85, none⟩, ⟨"CPU0", 40, some 90⟩] ∧
    sorted_component_list (.Temperature .Descending)
        [⟨"CPU0", 40, some 90⟩, ⟨"CPU1", 85, none⟩] =
      [⟨"CPU1", 85, none⟩, ⟨"CPU0", 40, some 90⟩] := by
  refine ⟨fun dir nm tp b => ⟨rfl, rfl⟩, ?_, ?_⟩ <;> rfl

/-- Claim C10: the process-sort keys m/M (memory), s/S (swap), r/R
(runtime) and the component-temperature keys t/T update the corresponding
sort spec on every tab, while c/C are gated on the active tab: they set the
process CPU-usage order only on tab 6 (Processes) and the component
critical-temperature order only on tab 7 (Components), and do nothing on
any other tab. -/
theorem C10_sort_key_gating :
    (∀ s : AppState,
      handle_event s (.key (.char 'm')) =
        .proceed { s with process_ordering := .MemoryUsage .Ascending } ∧
      handle_event s (.key (.char 'M')) =
        .proceed { s with process_ordering := .MemoryUsage .Descending } ∧
      handle_event s (.key (.char 's')) =
        .proceed { s with process_ordering := .SwapUsage .Ascending } ∧
      handle_event s (.key (.char 'S')) =
        .proceed { s with process_ordering := .SwapUsage .Descending } ∧
      handle_event s (.key (.char 'r')) =
        .proceed { s with process_ordering := .Runtime .Ascending } ∧
      handle_event s (.key (.char 'R')) =
        .proceed { s with process_ordering := .Runtime .Descending } ∧
      handle_event s (.key (.char 't')) =
        .proceed { s with component_ordering := .Temperature .Ascending } ∧
      handle_event s (.key (.char 'T')) =
        .proceed { s with component_ordering := .Temperature .Descending }) ∧
    (∀ s : AppState,
      (s.current_tab = 6 →
        handle_event s (.key (.char 'c')) =
          .proceed { s with process_ordering := .CpuUsage .Ascending } ∧
        handle_event s (.key (.char 'C')) =
          .proceed { s with process_ordering := .CpuUsage .Descending }) ∧
      (s.current_tab = 7 →
        handle_event s (.key (.char 'c')) =
          .proceed { s with component_ordering := .Critical .Ascending } ∧
        handle_event s (.key (.char 'C')) =
          .proceed { s with component_ordering := .Critical .Descending }) ∧
      (s.current_tab ≠ 6 → s.current_tab ≠ 7 →
        handle_event s (.key (.char 'c')) = .proceed s ∧
        handle_event s (.key (.char 'C')) = .proceed s)) := by
  have hc : ∀ s : AppState, handle_event s (.key (.char 'c')) =
      .proceed (if s.current_tab = 6 then { s with process_ordering := .CpuUsage .Ascending }
        else if s.current_tab = 7 then { s with component_ordering := .Critical .Ascending }
        else s) := fun s => rfl
  have hC : ∀ s : AppState, handle_event s (.key (.char 'C')) =
      .proceed (if s.current_tab = 6 then { s with process_ordering := .CpuUsage .Descending }
        else if s.current_tab = 7 then { s with component_ordering := .Critical .Descending }
        else s) := fun s => rfl
  refine ⟨fun s => ⟨rfl, rfl, rfl, rfl, rfl, rfl, rfl, rfl⟩, fun s => ⟨?_, ?_, ?_⟩⟩
  · intro h6
    rw [hc s, hC s, if_pos h6, if_pos h6]
    exact ⟨rfl, rfl⟩
  · intro h7
    have h6 : ¬ s.current_tab = 6 := by omega
    rw [hc s, hC s, if_neg h6, if_neg h6, if_pos h7, if_pos h7]
    exact ⟨rfl, rfl⟩
  · intro h6 h7
    rw [hc s, hC s, if_neg h6, if_neg h6, if_neg h7, if_neg h7]
    exact ⟨rfl, rfl⟩

/-- Witness for C10 at a concrete state: on the Processes tab (index 6) the
c key sets the CPU-usage ascending process order. -/
theorem C10_sort_key_gating_witness :
    handle_event { init_app_state none with current_tab := 6 } (.key (.char 'c')) =
      .proceed { { init_app_state none with current_tab := 6 } with
        process_ordering := .CpuUsage .Ascending } :=
  ((C10_sort_key_gating.2 { init_app_state none with current_tab := 6 }).1 rfl).1

/-- Claim C2 (amended): the debounced snapshot cache used for the CPU list
and the process list serves the previously cached value unchanged, without
consulting the probe, whenever a stored fetch instant exists and at most
INTERVAL elapsed since it; it consults the probe exactly when no fetch ever
happened or more than INTERVAL elapsed, storing the probe result with the
new instant; consequently two gets within the interval return bit-identical
values.  (As stated over every metric category the claim fails: see the
counterexample, the memory category probes on every draw.) -/
theorem C2_amended_cache_policy :
    (∀ (α : Type) (v : Option α) (t0 now : ℚ) (p : Option α),
      now - t0 ≤ INTERVAL →
        latest_info_refresh (v, some t0) now p = (v, some t0)) ∧
    (∀ (α : Type) (v : Option α) (now : ℚ) (p : Option α),
      latest_info_refresh (v, none) now p = (p, some now)) ∧
    (∀ (α : Type) (v : Option α) (t0 now : ℚ) (p : Option α),
      now - t0 > INTERVAL →
        latest_info_refresh (v, some t0) now p = (p, some now)) ∧
    (∀ (α : Type) (v : Option α) (t0 n1 n2 : ℚ) (p1 p2 : Option α),
      n1 - t0 ≤ INTERVAL → n2 - t0 ≤ INTERVAL →
        (latest_info_refresh (v, some t0) n1 p1).1 =
          (latest_info_refresh (v, some t0) n2 p2).1) := by
  refine ⟨?_, ?_, ?_, ?_⟩
  · intro α v t0 now p h
    unfold latest_info_refresh
    exact if_neg (not_lt.mpr h)
  · intro α v now p
    rfl
  · intro α v t0 now p h
    unfold latest_info_refresh
    exact if_pos h
  · intro α v t0 n1 n2 p1 p2 h1 h2
    show (if n1 - t0 > INTERVAL then (p1, some n1) else (v, some t0)).1 =
      (if n2 - t0 > INTERVAL then (p2, some n2) else (v, some t0)).1
    rw [if_neg (not_lt.mpr h1), if_neg (not_lt.mpr h2)]

/-- Witness for C2 (amended) at concrete values: a get half a second after
the fetch serves the cached value and ignores the probe. -/
theorem C2_amended_cache_policy_witness :
    latest_info_refresh ((some 5 : Option ℕ), some 0) (1/2) (some 7) = (some 5, some 0) :=
  C2_amended_cache_policy.1 ℕ (some 5) 0 (1/2) (some 7) (by norm_num [INTERVAL])

/-- Counterexample to C2 as stated: the memory category has no snapshot
cache at all; memory_tab reads the probe on every draw, so two gets within
the refresh interval return whatever the probe currently reports, not a
bit-identical cached value. -/
theorem C2_counterexample_memory_probes_every_draw :
    memory_tab_displayed (some ⟨8, 4, 2, 1⟩) = some ⟨8, 4, 2, 1⟩ ∧
    memory_tab_displayed (some ⟨8, 5, 2, 1⟩) = some ⟨8, 5, 2, 1⟩ ∧
    (⟨8, 4, 2, 1⟩ : MemoryInfo) ≠ ⟨8, 5, 2, 1⟩ :=
  ⟨rfl, rfl, by decide⟩

/-- A direction comparator answers Equal exactly on equal keys. -/
theorem sort_by_equal_iff {β : Type} [LinearOrder β] (dir : Ordering) (a b : β) :
    dir.sort_by a b = CmpOrdering.Equal ↔ a = b := by
  cases dir
  · exact cmpVal_eq_equal_iff a b
  · exact (cmpVal_eq_equal_iff b a).trans eq_comm

/-- On equal keys a direction comparator never answers Greater. -/
theorem sort_by_ne_greater_of_eq {β : Type} [LinearOrder β] (dir : Ordering) (a b : β)
    (h : a = b) : dir.sort_by a b ≠ CmpOrdering.Greater := by
  cases dir
  · exact (cmpVal_ne_greater_iff a b).mpr h.le
  · exact (cmpVal_ne_greater_iff b a).mpr h.ge

/-- Claim C4: for both sortable collections (process list, component list)
and every sort field, the sort is stable: the elements whose selected field
compares Equal to that of any fixed element keep their relative input order
(their filtered subsequence is unchanged by sorting); and sorting ascending
and then re-sorting the same field descending yields the exact reverse
order when the selected keys are pairwise distinct. -/
theorem C4_sort_stability_and_reversal :
    (∀ (o : SortByProcess) (l : List ProcessInfo) (x : ProcessInfo),
      (sorted_process_list o l).filter
          (fun y => decide (process_sort_fn o x y = CmpOrdering.Equal)) =
        l.filter (fun y => decide (process_sort_fn o x y = CmpOrdering.Equal))) ∧
    (∀ (o : SortByComponent) (l : List ComponentInfo) (x : ComponentInfo),
      (sorted_component_list o l).filter
          (fun y => decide (component_sort_fn o x y = CmpOrdering.Equal)) =
        l.filter (fun y => decide (component_sort_fn o x y = CmpOrdering.Equal))) ∧
    (∀ l : List ProcessInfo, l.Pairwise (fun a b => a.cpu_usage ≠ b.cpu_usage) →
      sorted_process_list (.CpuUsage .Descending)
          (sorted_process_list (.CpuUsage .Ascending) l) =
        (sorted_process_list (.CpuUsage .Ascending) l).reverse) ∧
    (∀ l : List ProcessInfo, l.Pairwise (fun a b => a.memory_usage ≠ b.memory_usage) →
      sorted_process_list (.MemoryUsage .Descending)
          (sorted_process_list (.MemoryUsage .Ascending) l) =
        (sorted_process_list (.MemoryUsage .Ascending) l).reverse) ∧
    (∀ l : List ProcessInfo, l.Pairwise (fun a b => a.swap_usage ≠ b.swap_usage) →
      sorted_process_list (.SwapUsage .Descending)
          (sorted_process_list (.SwapUsage .Ascending) l) =
        (sorted_process_list (.SwapUsage .Ascending) l).reverse) ∧
    (∀ l : List ProcessInfo, l.Pairwise (fun a b => a.run_time ≠ b.run_time) →
      sorted_process_list (.Runtime .Descending)
          (sorted_process_list (.Runtime .Ascending) l) =
        (sorted_process_list (.Runtime .Ascending) l).reverse) ∧
    (∀ l : List ComponentInfo, l.Pairwise (fun a b => a.temperature ≠ b.temperature) →
      sorted_component_list (.Temperature .Descending)
          (sorted_component_list (.Temperature .Ascending) l) =
        (sorted_component_list (.Temperature .Ascending) l).reverse) ∧
    (∀ l : List ComponentInfo,
      l.Pairwise (fun a b => a.critical_temperature.getD 0 ≠ b.critical_temperature.getD 0) →
      sorted_component_list (.Critical .Descending)
          (sorted_component_list (.Critical .Ascending) l) =
        (sorted_component_list (.Critical .Ascending) l).reverse) := by
  refine ⟨?_, ?_, ?_, ?_, ?_, ?_, ?_, ?_⟩
  · intro o l x
    unfold sorted_process_list vec_sort_by
    apply filter_insertionSort_stable
    intro a b ha hb
    rw [decide_eq_true_eq] at ha hb
    cases o with
    | CpuUsage dir =>
      exact sort_by_ne_greater_of_eq dir _ _
        (((sort_by_equal_iff dir _ _).mp ha).symm.trans ((sort_by_equal_iff dir _ _).mp hb))
    | MemoryUsage dir =>
      exact sort_by_ne_greater_of_eq dir _ _
        (((sort_by_equal_iff dir _ _).mp ha).symm.trans ((sort_by_equal_iff dir _ _).mp hb))
    | SwapUsage dir =>
      exact sort_by_ne_greater_of_eq dir _ _
        (((sort_by_equal_iff dir _ _).mp ha).symm.trans ((sort_by_equal_iff dir _ _).mp hb))
    | Runtime dir =>
      exact sort_by_ne_greater_of_eq dir _ _
        (((sort_by_equal_iff dir _ _).mp ha).symm.trans ((sort_by_equal_iff dir _ _).mp hb))
  · intro o l x
    unfold sorted_component_list vec_sort_by
    apply filter_insertionSort_stable
    intro a b ha hb
    rw [decide_eq_true_eq] at ha hb
    cases o with
    | Temperature dir =>
      exact sort_by_ne_greater_of_eq dir _ _
        (((sort_by_equal_iff dir _ _).mp ha).symm.trans ((sort_by_equal_iff dir _ _).mp hb))
    | Critical dir =>
      exact sort_by_ne_greater_of_eq dir _ _
        (((sort_by_equal_iff dir _ _).mp ha).symm.trans ((sort_by_equal_iff dir _ _).mp hb))
  · intro l hd
    unfold sorted_process_list vec_sort_by
    exact insertionSort_desc_of_asc _ _ (fun p => p.cpu_usage)
      (fun a b => cmpVal_ne_greater_iff _ _) (fun a b => cmpVal_ne_greater_iff _ _) l hd
  · intro l hd
    unfold sorted_process_list vec_sort_by
    exact insertionSort_desc_of_asc _ _ (fun p => p.memory_usage)
      (fun a b => cmpVal_ne_greater_iff _ _) (fun a b => cmpVal_ne_greater_iff _ _) l hd
  · intro l hd
    unfold sorted_process_list vec_sort_by
    exact insertionSort_desc_of_asc _ _ (fun p => p.swap_usage)
      (fun a b => cmpVal_ne_greater_iff _ _) (fun a b => cmpVal_ne_greater_iff _ _) l hd
  · intro l hd
    unfold sorted_process_list vec_sort_by
    exact insertionSort_desc_of_asc _ _ (fun p => p.run_time)
      (fun a b => cmpVal_ne_greater_iff _ _) (fun a b => cmpVal_ne_greater_iff _ _) l hd
  · intro l hd
    unfold sorted_component_list vec_sort_by
    exact insertionSort_desc_of_asc _ _ (fun c => c.temperature)
      (fun a b => cmpVal_ne_greater_iff _ _) (fun a b => cmpVal_ne_greater_iff _ _) l hd
  · intro l hd
    unfold sorted_component_list vec_sort_by
    exact insertionSort_desc_of_asc _ _ (fun c => c.critical_temperature.getD 0)
      (fun a b => cmpVal_ne_greater_iff _ _) (fun a b => cmpVal_ne_greater_iff _ _) l hd

/-- Witness for C4 at a concrete two-process list with distinct CPU keys:
ascending then descending CPU-usage sort is the exact reversal. -/
theorem C4_sort_stability_and_reversal_witness :
    sorted_process_list (.CpuUsage .Descending)
        (sorted_process_list (.CpuUsage .Ascending)
          [⟨"a", none, 1, 2, 3, 4, 5, none⟩, ⟨"b", none, 2, 3, 7, 5, 6, none⟩]) =
      (sorted_process_list (.CpuUsage .Ascending)
          [⟨"a", none, 1, 2, 3, 4, 5, none⟩, ⟨"b", none, 2, 3, 7, 5, 6, none⟩]).reverse :=
  C4_sort_stability_and_reversal.2.2.1
    [⟨"a", none, 1, 2, 3, 4, 5, none⟩, ⟨"b", none, 2, 3, 7, 5, 6, none⟩] (by decide)

/-- The termination measure of the shrinking loop decreases. -/
theorem floor_div1000_lt (x : ℚ) (h : 1000 < x) :
    Nat.floor (x / 1000) < Nat.floor x := by
  have hx0 : (0:ℚ) ≤ x / 1000 := by positivity
  have h1000 : (1000:ℕ) ≤ Nat.floor x := Nat.le_floor (by exact_mod_cast h.le)
  have hfl : (1000:ℚ) ≤ ((Nat.floor x : ℕ) : ℚ) := by exact_mod_cast h1000
  have hxlt : x < (Nat.floor x : ℚ) + 1 := Nat.lt_floor_add_one x
  have hlt : x / 1000 < ((Nat.floor x : ℕ) : ℚ) := by
    rw [div_lt_iff₀ (by norm_num : (0:ℚ) < 1000)]
    nlinarith
  exact (Nat.floor_lt hx0).mpr hlt

/-- The shrinking loop stops at a value of at most 1000 (fuelled form). -/
theorem shrink1000_le_aux :
    ∀ (n : ℕ) (x : ℚ), 0 ≤ x → Nat.floor x ≤ n → shrink1000 x ≤ 1000 := by
  intro n
  induction n with
  | zero =>
    intro x hx hf
    have hnl : ¬ (1000:ℚ) < x := by
      intro h
      have := Nat.le_floor (α := ℚ) (n := 1000) (by exact_mod_cast h.le)
      omega
    rw [shrink1000, dif_neg hnl]
    exact not_lt.mp hnl
  | succ n ih =>
    intro x hx hf
    rw [shrink1000]
    by_cases h : (1000:ℚ) < x
    · rw [dif_pos h]
      have hdec := floor_div1000_lt x h
      exact ih (x / 1000) (by positivity) (by omega)
    · rw [dif_neg h]
      exact not_lt.mp h

/-- The shrinking loop stops at a value of at most 1000. -/
theorem shrink1000_le (x : ℚ) (hx : 0 ≤ x) : shrink1000 x ≤ 1000 :=
  shrink1000_le_aux (Nat.floor x) x hx le_rfl

/-- Counterexample to C9 as stated: the code loop runs while the value
exceeds 1000, not until it drops below 1000.  At total capacity 1000000
the code-derived scale is exactly 1000 (which never dropped below 1000),
while the procedure worded in the specification would divide once more and
yield 1. -/
theorem C9_counterexample_scale_boundary :
    important_digits 1000000 = 1000 ∧
    important_digits_specWords 1000000 = 1 ∧
    (1000 : ℚ) ≠ 1 := by
  have e1 : ((1000000 : ℕ) : ℚ) = (1000000 : ℚ) := by norm_num
  have h1 : shrink1000 ((1000000 : ℕ) : ℚ) = shrink1000 1000 := by
    rw [e1, shrink1000, dif_pos (by norm_num : (1000:ℚ) < 1000000)]
    norm_num
  have h2 : shrink1000 (1000 : ℚ) = 1000 := by
    rw [shrink1000, dif_neg (by norm_num : ¬ (1000:ℚ) < 1000)]
  have s1 : shrink1000_specWords ((1000000 : ℕ) : ℚ) = shrink1000_specWords 1000 := by
    rw [e1, shrink1000_specWords, dif_pos (by norm_num : (1000:ℚ) ≤ 1000000)]
    norm_num
  have s2 : shrink1000_specWords (1000 : ℚ) = shrink1000_specWords 1 := by
    rw [shrink1000_specWords, dif_pos (by norm_num : (1000:ℚ) ≤ 1000)]
    norm_num
  have s3 : shrink1000_specWords (1 : ℚ) = 1 := by
    rw [shrink1000_specWords, dif_neg (by norm_num : ¬ (1000:ℚ) ≤ 1)]
  refine ⟨?_, ?_, by norm_num⟩
  · unfold important_digits
    rw [h1, h2]
    norm_num
  · unfold important_digits_specWords
    rw [s1, s2, s3]
    norm_num

/-- Claim C9 (amended): both axis scales are computed once at startup, by
dividing the reported total capacity by 1000 while it still exceeds 1000
(so the loop stops at a value of at most 1000, not necessarily below it)
and flooring; and no operation of the dashboard loop, over any iteration
or any whole run, ever modifies either scale afterwards. -/
theorem C9_amended_scale_once :
    (∀ mem : MemoryInfo,
      (init_app_state (some mem)).ram_important_digits =
        some (important_digits mem.total_memory) ∧
      (init_app_state (some mem)).swap_important_digits =
        some (important_digits mem.total_swap)) ∧
    (∀ n : ℕ, shrink1000 (n : ℚ) ≤ 1000) ∧
    (∀ (ls : LoopState) (inp : TickInput),
      iter_scales_preserved ls (loop_iter ls inp)) ∧
    (∀ (trace : List TickInput) (ls : LoopState),
      run_scales_eq ls (run_loop ls trace)) := by
  refine ⟨fun mem => ⟨rfl, rfl⟩, ?_, loop_iter_scales, run_loop_scales⟩
  intro n
  exact shrink1000_le (n : ℚ) (by positivity)

/-- Events applied one at a time keep the cursor within the u16 range. -/
theorem apply_events_line_bound (es : List Event) :
    ∀ s : AppState, s.current_line ≤ 65535 → (apply_events s es).current_line ≤ 65535 := by
  induction es with
  | nil => intro s hb; exact hb
  | cons e es ih =>
    intro s hb
    have he := handle_event_line_bound s e hb
    unfold apply_events
    rcases her : handle_event s e with s2 | qacts
    · rw [her] at he
      exact ih s2 he
    · exact hb

/-- Claim C6 (amended): the cursor is a u16 updated with saturating
arithmetic: it can never go negative (it is a natural number, as u16 is
non-negative) and never exceeds 65535, over any event sequence and any run
of the dashboard loop.  It is NOT clamped to the collection length: see the
counterexample, the TODO at src/cli/src/main.rs line 416 leaves scrolling
unlimited. -/
theorem C6_amended_cursor_saturates :
    (∀ (s : AppState) (es : List Event), s.current_line ≤ 65535 →
      (apply_events s es).current_line ≤ 65535) ∧
    (∀ (ls : LoopState) (inp : TickInput), ls.app.current_line ≤ 65535 →
      iter_line_bounded (loop_iter ls inp)) ∧
    (∀ (trace : List TickInput) (ls : LoopState), ls.app.current_line ≤ 65535 →
      run_line_bounded (run_loop ls trace)) :=
  ⟨fun s es h => apply_events_line_bound es s h,
   loop_iter_line_bound,
   run_loop_line_bound⟩

/-- Witness for C6 (amended): from the initial dashboard state (cursor 0)
two scroll-down inputs leave the cursor within the u16 range. -/
theorem C6_amended_cursor_saturates_witness :
    (apply_events (init_app_state none) [.key .down, .key .down]).current_line ≤ 65535 :=
  C6_amended_cursor_saturates.1 (init_app_state none) [.key .down, .key .down] (by decide)

/-- Counterexample to C6 as stated: with a process collection of length 1
(so length minus one is 0), two down-arrow inputs drive the cursor to 2:
the cursor exceeds the collection length minus one, because the source
never clamps it to the collection. -/
theorem C6_counterexample_cursor_exceeds_collection :
    (apply_events { init_app_state none with current_tab := 6 }
        [.key .down, .key .down]).current_line = 2 ∧
    (sorted_process_list (.CpuUsage .Descending)
        [⟨"p", none, 1, 1, 1, 1, 1, none⟩]).length = 1 ∧
    2 > 1 - 1 := by
  refine ⟨rfl, rfl, by norm_num⟩

/-- Claim C8: pressing a quit key in the welcome screen or in the dashboard
makes the program first send the stop signal over the cancellation channel
and then join the background network task, in that order, before run_app
returns; and the background task, which checks the channel at every loop
head between probe iterations, reaches the stopped state at its first
check after the signal was sent and stays stopped, so the join always
completes (each network probe call is one terminating step of the model). -/
theorem C8_quit_joins_background :
    (welcome_handle (.char 'q') = .quitFromWelcome [.sendStop, .joinBackground] ∧
     welcome_handle .esc = .quitFromWelcome [.sendStop, .joinBackground]) ∧
    (∀ s : AppState,
      handle_event s (.key (.char 'q')) = .quitProgram [.sendStop, .joinBackground] ∧
      handle_event s (.key .esc) = .quitProgram [.sendStop, .joinBackground]) ∧
    (∀ sentAt n : ℕ, sentAt < n → bg_run sentAt n = .stopped) := by
  refine ⟨⟨rfl, rfl⟩, fun s => ⟨rfl, rfl⟩, ?_⟩
  intro sentAt n h
  cases n with
  | zero => omega
  | succ n =>
    show bg_step (decide (sentAt ≤ n)) (bg_run sentAt n) = .stopped
    rw [decide_eq_true (by omega : sentAt ≤ n)]
    cases bg_run sentAt n <;> rfl

/-- Witness for C8: with the stop signal sent before check 0, the
background task is stopped at check 1. -/
theorem C8_quit_joins_background_witness : bg_run 0 1 = BgState.stopped :=
  C8_quit_joins_background.2.2 0 1 (by norm_num)

/-- Claim C7 (amended): at most one popup is rendered at any time because
the kill request takes display precedence over the more-information
request (the rendered popup with the kill flag set does not depend on the
more-information flag at all); the dismiss key x clears every popup flag,
after which nothing is rendered; but entering one popup variant does NOT
clear the others: the popup requests are independent boolean flags (k only
sets the kill flag, i only sets the more-information flag), so a
more-information popup suppressed by a kill popup reappears when the kill
flow ends (see the counterexample). -/
theorem C7_amended_popup_flags :
    (∀ (procs : Option (List ProcessInfo)) (o : SortByProcess) (m1 m2 : Bool) (line : ℕ),
      process_tab_popup procs o true m1 line = process_tab_popup procs o true m2 line) ∧
    (∀ s : AppState,
      handle_event s (.key (.char 'k')) = .proceed { s with kill_current_process := true } ∧
      handle_event s (.key (.char 'i')) = .proceed { s with more_information := true }) ∧
    (∀ s : AppState,
      handle_event s (.key (.char 'x')) =
        .proceed { s with more_information := false, kill_current_process := false,
                          process_to_kill := none }) ∧
    (∀ (procs : Option (List ProcessInfo)) (o : SortByProcess) (line : ℕ),
      process_tab_popup procs o false false line = none) := by
  refine ⟨?_, fun s => ⟨rfl, rfl⟩, fun s => rfl, ?_⟩
  · intro procs o m1 m2 line
    cases procs with
    | none => rfl
    | some l =>
      cases l with
      | nil => rfl
      | cons a as => rfl
  · intro procs o line
    cases procs with
    | none => rfl
    | some l =>
      cases l with
      | nil => rfl
      | cons a as => rfl

set_option maxRecDepth 100000 in
set_option maxHeartbeats 16000000 in
/-- Counterexample to C7 as stated: on the Processes tab with one process
cached, the trace i (enter MoreInfo), k (enter the kill popup), n (deny
the kill) ends with the more-information popup rendered again: entering
the kill variant did not clear the MoreInfo variant, it only shadowed it,
so after the deny the popup state is not None as the claim requires. -/
theorem C7_counterexample_moreinfo_survives_kill_flow :
    run_loop
      { app := { init_app_state none with current_tab := 6 }, latest_update := 0,
        cpu_tab_cache := (none, none),
        process_tab_cache := (some [⟨"proc", none, 1, 1, 1, 1, 42, none⟩], some 0) }
      [quiet_tick 0 (some (.key (.char 'i'))),
       quiet_tick 0 (some (.key (.char 'k'))),
       quiet_tick 0 (some (.key (.char 'n'))),
       quiet_tick 0 none] =
      .finished
        { app := { init_app_state none with current_tab := 6, more_information := true },
          latest_update := 0, cpu_tab_cache := (none, none),
          process_tab_cache := (some [⟨"proc", none, 1, 1, 1, 1, 42, none⟩], some 0) } ∧
    process_tab_popup (some [⟨"proc", none, 1, 1, 1, 1, 42, none⟩]) (.CpuUsage .Descending)
        false true 0 = some (.MoreInformation ⟨"proc", none, 1, 1, 1, 1, 42, none⟩) ∧
    some (ProcessPopup.MoreInformation ⟨"proc", none, 1, 1, 1, 1, 42, none⟩) ≠
      (none : Option ProcessPopup) := by
  refine ⟨?_, rfl, by simp⟩
  norm_num [run_loop, loop_iter, ui_draw, latest_info_refresh, INTERVAL, record_step,
    handle_event, post_draw_reset, process_tab_popup, popup_recorded_kill,
    sorted_process_list, vec_sort_by, quiet_tick, init_app_state, init_loop_state,
    List.insertionSort, List.orderedInsert]
  decide

set_option maxRecDepth 100000 in
set_option maxHeartbeats 16000000 in
/-- Claim C1 is a code bug: two reachable input sequences panic the
dashboard render loop.  First, eight right-arrow presses reach tab index 8
(the Tab enum has ten variants, so navigation allows indices up to 9, but
ui only renders indices 0 to 7): the next draw hits the `unreachable!()`
arm of src/cli/src/main.rs line 586.  Second, six right-arrow presses
reach the Processes tab and a confirm key y pressed with no kill popup
ever opened leaves process_to_kill at None while confirm_kill is
Some(true): the next draw panics in the `.expect("Pid should be set at
this point. Report")` of line 563.  Both runs of the embedded loop
evaluate to the panic outcome. -/
theorem C1_render_loop_panics :
    run_loop (init_loop_state none)
      [quiet_tick 0 (some (.key .right)), quiet_tick 0 (some (.key .right)),
       quiet_tick 0 (some (.key .right)), quiet_tick 0 (some (.key .right)),
       quiet_tick 0 (some (.key .right)), quiet_tick 0 (some (.key .right)),
       quiet_tick 0 (some (.key .right)), quiet_tick 0 (some (.key .right)),
       quiet_tick 0 none] = .panicked ∧
    run_loop (init_loop_state none)
      [quiet_tick 0 (some (.key .right)), quiet_tick 0 (some (.key .right)),
       quiet_tick 0 (some (.key .right)), quiet_tick 0 (some (.key .right)),
       quiet_tick 0 (some (.key .right)), quiet_tick 0 (some (.key .right)),
       quiet_tick 0 (some (.key (.char 'y'))), quiet_tick 0 none] = .panicked := by
  constructor
  · decide
  · norm_num [run_loop, loop_iter, ui_draw, latest_info_refresh, INTERVAL, record_step,
      handle_event, post_draw_reset, process_tab_popup, popup_recorded_kill,
      sorted_process_list, vec_sort_by, quiet_tick, init_app_state, init_loop_state,
      List.insertionSort, List.orderedInsert]
    decide

set_option maxRecDepth 100000 in
set_option maxHeartbeats 4000000 in
/-- Counterexample to C3 as stated: the claim says a sample is appended to a
series if and only if that series is empty or enough time passed, with the
first sample captured immediately.  The RAM series is empty before the very
first record call (memory total 100, used 50, so a genuine ratio sample is
available), yet that call leaves the RAM series empty: the first record call
only seeds the CPU series, and RAM and swap samples are produced exclusively
in the later interval-gated branch of src/cli/src/main.rs lines 297-330. -/
theorem C3_counterexample_ram_first_sample_not_immediate :
    record_step (init_app_state none) 0 0
        (some [⟨10, "core0", "m", 1⟩]) (some ⟨100, 50, 0, 0⟩) =
      .ok { init_app_state none with
              cpu_dataset := [(⟨10, "core0", "m", 1⟩, [(0, 10)])] } 0 ∧
    (init_app_state none).ram_dataset = [] ∧
    ({ init_app_state none with
         cpu_dataset := [(⟨10, "core0", "m", 1⟩, [(0, 10)])] } : AppState).ram_dataset =
      [] := by
  refine ⟨?_, rfl, rfl⟩
  norm_num [record_step, init_app_state, chart_sample_value, push_all_cores, dataset_push,
    INTERVAL]

set_option maxRecDepth 100000 in
set_option maxHeartbeats 4000000 in
/-- Amended C3: the recorder gate is the shared `latest_update` instant, not a
per-key last-sample time.  On a dataset holding a single CPU key whose last
recorded sample is exactly `latest_update` old (hypothesis `hlast`), the two
readings coincide: a record call appends to that series exactly when the
elapsed time since the key's last sample exceeds the 1-second interval, and
RAM and swap samples ride along on the same gate.  An empty CPU dataset
receives its first CPU samples immediately (and resets `latest_update`), but
seeds no RAM or swap sample.  The claim's scenario holds for the CPU series:
recording (0,10) then (1/2,20) then (6/5,30) under one key yields the series
[(0,10),(6/5,30)], the middle sample being suppressed as too soon. -/
theorem C3_amended_record_gating
    (base : AppState) (k c : CpuInfo) (ss : List DataPoint) (lu t : ℚ)
    (mi : MemoryInfo) (v1 v2 : ℚ)
    (hkey : cpu_key_eq k c = true)
    (hlast : series_last_elapsed ss = some lu)
    (hram : chart_sample_value mi.total_memory mi.used_memory
        base.ram_important_digits = some v1)
    (hswap : chart_sample_value mi.total_swap mi.used_swap
        base.swap_important_digits = some v2) :
    (t - lu > INTERVAL →
       record_step { base with cpu_dataset := [(k, ss)] } lu t (some [c]) (some mi) =
         .ok { base with cpu_dataset := [(k, ss ++ [(t, c.usage)])],
                         ram_dataset := base.ram_dataset ++ [(t, v1)],
                         swap_dataset := base.swap_dataset ++ [(t, v2)] } t) ∧
    (¬ t - lu > INTERVAL →
       record_step { base with cpu_dataset := [(k, ss)] } lu t (some [c]) (some mi) =
         .ok { base with cpu_dataset := [(k, ss)] } lu) ∧
    (∀ (s0 : AppState) (lu0 t0 : ℚ) (cores : List CpuInfo) (mi0 : MemoryInfo),
       s0.cpu_dataset = [] →
       record_step s0 lu0 t0 (some cores) (some mi0) =
         .ok { s0 with cpu_dataset := cores.map (fun d => (d, [(t0, d.usage)])) } t0) ∧
    (∃ s1 s2 s3 : AppState,
       record_step (init_app_state none) 0 0 (some [⟨10, "core0", "m", 1⟩])
           (some ⟨0, 0, 0, 0⟩) = .ok s1 0 ∧
       record_step s1 0 (1/2) (some [⟨20, "core0", "m", 1⟩]) (some ⟨0, 0, 0, 0⟩) =
         .ok s2 0 ∧
       record_step s2 0 (6/5) (some [⟨30, "core0", "m", 1⟩]) (some ⟨0, 0, 0, 0⟩) =
         .ok s3 (6/5) ∧
       dataset_find s3.cpu_dataset ⟨30, "core0", "m", 1⟩ =
         some [(0, 10), (6/5, 30)]) := by
  refine ⟨?_, ?_, ?_, ?_⟩
  · intro hgt
    simp only [record_step, List.isEmpty_cons, Bool.false_eq_true, if_false,
      if_pos hgt, push_all_cores, dataset_push, hkey, if_true, Option.some_bind, hram,
      hswap]
  · intro hle
    simp only [record_step, List.isEmpty_cons, Bool.false_eq_true, if_false, if_neg hle]
  · intro s0 lu0 t0 cores mi0 h0
    simp only [record_step, h0, List.isEmpty_nil, if_true]
  · refine ⟨{ init_app_state none with
        cpu_dataset := [(⟨10, "core0", "m", 1⟩, [(0, 10)])] },
      { init_app_state none with
        cpu_dataset := [(⟨10, "core0", "m", 1⟩, [(0, 10)])] },
      { init_app_state none with
        cpu_dataset := [(⟨10, "core0", "m", 1⟩, [(0, 10), (6/5, 30)])],
        ram_dataset := [(6/5, 0)], swap_dataset := [(6/5, 0)] }, ?_, ?_, ?_, ?_⟩
    · norm_num [record_step, init_app_state, chart_sample_value, push_all_cores,
        dataset_push, INTERVAL]
    · norm_num [record_step, init_app_state, chart_sample_value, push_all_cores,
        dataset_push, INTERVAL]
    · norm_num [record_step, init_app_state, chart_sample_value, push_all_cores,
        dataset_push, INTERVAL, cpu_key_eq]
    · norm_num [dataset_find, cpu_key_eq]

/-- Witness for the amended C3 theorem at a concrete input: one cached core
whose last sample is 6/5 seconds old gets a new sample and drags one RAM and
one swap sample along. -/
theorem C3_amended_record_gating_witness :
    record_step { init_app_state none with
        cpu_dataset := [(⟨10, "core0", "m", 1⟩, [(0, 10)])] }
        0 (6/5) (some [⟨30, "core0", "m", 1⟩]) (some ⟨0, 0, 0, 0⟩) =
      .ok { init_app_state none with
              cpu_dataset := [(⟨10, "core0", "m", 1⟩, [(0, 10), (6/5, 30)])],
              ram_dataset := [(6/5, 0)], swap_dataset := [(6/5, 0)] } (6/5) :=
  (C3_amended_record_gating (init_app_state none) ⟨10, "core0", "m", 1⟩
      ⟨30, "core0", "m", 1⟩ [(0, 10)] 0 (6/5) ⟨0, 0, 0, 0⟩ 0 0
      rfl rfl rfl rfl).1 (by norm_num [INTERVAL])

end Crossinfo
